import Mathlib

/-!
Shallow embedding of the RADIUS synchronization core of the
Raynet-Cloud-Radius repository: the namespace mapper and attribute
encoder (`radius-utils`), and the table-synchronization service
(`radius.service`).  Database tables are modelled as lists of rows;
each service method becomes a pure state transformer describing the
effect of its (successful) transaction.  JavaScript numeric string
interpolation is modelled by `natToDec`, and JavaScript truthiness of
nullable numbers and strings is modelled explicitly.
-/

/- ## Decimal rendering of natural numbers (JS template interpolation) -/

/-- The decimal digit character for `n % 10`. -/
def decDigit (n : Nat) : Char := Char.ofNat (48 + n % 10)

/-- Fuel-driven accumulator loop producing the decimal digits of `n`
in order, mirroring the usual most-significant-first rendering that
JavaScript string interpolation performs on integers. -/
def decDigitsCore : Nat → Nat → List Char → List Char
  | 0, _, acc => acc
  | fuel + 1, n, acc =>
    if n / 10 = 0 then decDigit n :: acc
    else decDigitsCore fuel (n / 10) (decDigit n :: acc)

/-- Decimal rendering of a natural number, as produced by a JS
template literal interpolating a non-negative integer. -/
def natToDec (n : Nat) : String := ⟨decDigitsCore (n + 1) n []⟩

/-- Recursive (fuel-free) description of the decimal digits of `n`,
used only to reason about `decDigitsCore`. -/
def decDigitsRec (n : Nat) : List Char :=
  if _h : n < 10 then [decDigit n]
  else decDigitsRec (n / 10) ++ [decDigit n]
  decreasing_by
    exact Nat.div_lt_self (by omega) (by omega)

/- ## Splitting and joining on a separator character (JS split / join) -/

/-- `JS String.prototype.split` with a one-character separator,
modelled on the character list of the string. -/
def splitOnChar (sep : Char) : List Char → List (List Char)
  | [] => [[]]
  | c :: cs =>
    if c = sep then [] :: splitOnChar sep cs
    else
      match splitOnChar sep cs with
      | [] => [[c]]
      | r :: rs => (c :: r) :: rs

/-- `JS Array.prototype.join` with a one-character separator. -/
def joinSep (sep : Char) : List (List Char) → List Char
  | [] => []
  | [x] => x
  | x :: xs => x ++ sep :: joinSep sep xs

/-- The space character, written by code point. -/
def spaceChar : Char := Char.ofNat 32

/- ## Domain data model (fields used by the synchronization core) -/

inductive SpeedUnit
  | MBPS
  | KBPS
deriving DecidableEq

inductive ValidityUnit
  | HOURS
  | DAYS
  | MONTHS
deriving DecidableEq

/-- A bandwidth plan; the fields the encoder and plan sync read.
Nullable numeric columns are `Option Nat`. -/
structure Plan where
  id : String
  downloadSpeed : Nat
  uploadSpeed : Nat
  speedUnit : SpeedUnit
  burstDownloadSpeed : Option Nat
  burstUploadSpeed : Option Nat
  burstThreshold : Option Nat
  burstTime : Option Nat
  priority : Nat
  poolName : Option String
  validityDays : Nat
  validityUnit : ValidityUnit
  simultaneousDevices : Option Nat
deriving DecidableEq

/-- A calendar date as read through the JS `Date` accessors used by
`formatRadiusExpiration`: `getMonth()` is zero-based, `getDate()` is
the day of month, `getFullYear()` the year. -/
structure RDate where
  month : Fin 12
  day : Nat
  year : Nat
deriving DecidableEq

/-- A subscriber; the fields the auth synchronizer reads. -/
structure Subscriber where
  username : String
  expiryDate : Option RDate
  macAddress : Option String
  planId : Option String
  staticIp : Option String
deriving DecidableEq

/- ## radius-utils: namespace mapper and attribute encoder -/

/-- Tenant-prefixed RADIUS username: `{slug}_{username}`. -/
def buildRadiusUsername (tenantSlug : String) (username : String) : String :=
  tenantSlug ++ "_" ++ username

/-- Tenant-prefixed RADIUS group name: `{slug}_{planId}`. -/
def buildRadiusGroupname (tenantSlug : String) (planId : String) : String :=
  tenantSlug ++ "_" ++ planId

/-- Inverse of `buildRadiusUsername`: split on underscore, drop the
tenant slug, re-join the remainder with underscores. -/
def extractSubscriberUsername (radiusUsername : String) : String :=
  ⟨joinSep '_' (List.tail (splitOnChar '_' radiusUsername.data))⟩

/-- The `unit` local constant of `buildMikroTikRateLimit`. -/
def rlUnit (plan : Plan) : String :=
  if plan.speedUnit = SpeedUnit.MBPS then "M" else "k"

/-- The `rx` local constant of `buildMikroTikRateLimit`. -/
def rlRx (plan : Plan) : String := natToDec plan.downloadSpeed ++ rlUnit plan

/-- The `tx` local constant of `buildMikroTikRateLimit`. -/
def rlTx (plan : Plan) : String := natToDec plan.uploadSpeed ++ rlUnit plan

/-- The `burstRx` local constant of `buildMikroTikRateLimit`. -/
def rlBurstRx (plan : Plan) : String :=
  natToDec (plan.burstDownloadSpeed.getD 0) ++ rlUnit plan

/-- The `burstTx` local constant of `buildMikroTikRateLimit`. -/
def rlBurstTx (plan : Plan) : String :=
  natToDec (plan.burstUploadSpeed.getD 0) ++ rlUnit plan

/-- The `thresholdRx` (and identical `thresholdTx`) local constant of
`buildMikroTikRateLimit`: a JS-truthy threshold is rendered with a
`k` suffix, a null or zero threshold as the bare string `0`. -/
def rlThreshold (plan : Plan) : String :=
  if plan.burstThreshold.getD 0 ≠ 0 then
    natToDec (plan.burstThreshold.getD 0) ++ "k"
  else "0"

/-- The `time` local constant of `buildMikroTikRateLimit`. -/
def rlTime (plan : Plan) : String :=
  natToDec (plan.burstTime.getD 0) ++ "s/" ++
    natToDec (plan.burstTime.getD 0) ++ "s"

/-- The MikroTik rate-limit attribute string for a plan.  Burst form
is emitted only when burst download, burst upload and burst time are
all present and non-zero (JS truthiness of nullable numbers). -/
def buildMikroTikRateLimit (plan : Plan) : String :=
  if plan.burstDownloadSpeed.getD 0 ≠ 0 ∧ plan.burstUploadSpeed.getD 0 ≠ 0 ∧
      plan.burstTime.getD 0 ≠ 0 then
    rlRx plan ++ "/" ++ rlTx plan ++ " " ++ rlBurstRx plan ++ "/" ++
      rlBurstTx plan ++ " " ++ rlThreshold plan ++ "/" ++ rlThreshold plan ++
      " " ++ rlTime plan ++ " " ++ natToDec plan.priority
  else
    rlRx plan ++ "/" ++ rlTx plan

/-- One (attribute, value, priority) reply triple. -/
structure RadAttr where
  attr : String
  value : String
  priority : Nat
deriving DecidableEq

/-- The ordered reply-attribute list for a plan: rate limit first,
then the optional framed pool, then session timeout for hour plans. -/
def planToRadiusAttributes (plan : Plan) : List RadAttr :=
  [⟨"Mikrotik-Rate-Limit", buildMikroTikRateLimit plan, 1⟩] ++
  (match plan.poolName with
   | some p => if p = "" then [] else [⟨"Framed-Pool", p, 2⟩]
   | none => []) ++
  (if plan.validityUnit = ValidityUnit.HOURS then
    [⟨"Session-Timeout", natToDec (plan.validityDays * 3600), 3⟩]
   else [])

/- ## radius.service: table rows and state -/

structure RadCheckRow where
  username : String
  attr : String
  op : String
  value : String
deriving DecidableEq

structure RadReplyRow where
  username : String
  attr : String
  op : String
  value : String
deriving DecidableEq

structure RadUserGroupRow where
  username : String
  groupname : String
  priority : Nat
deriving DecidableEq

structure RadGroupReplyRow where
  groupname : String
  attr : String
  op : String
  value : String
  priority : Nat
deriving DecidableEq

structure RadGroupCheckRow where
  groupname : String
  attr : String
  op : String
  value : String
deriving DecidableEq

/-- The five user/group tables the synchronizer writes. -/
structure RadiusDb where
  radCheck : List RadCheckRow
  radReply : List RadReplyRow
  radUserGroup : List RadUserGroupRow
  radGroupReply : List RadGroupReplyRow
  radGroupCheck : List RadGroupCheckRow
deriving DecidableEq

/-- Does a radcheck row match a `deleteMany` filter on username and
attribute? -/
def matchUA (u a : String) (r : RadCheckRow) : Bool :=
  r.username == u && r.attr == a

/-- `radCheck.deleteMany({where: {username, attribute}})`. -/
def delUA (u a : String) (l : List RadCheckRow) : List RadCheckRow :=
  l.filter fun r => !(matchUA u a r)

/-- FreeRADIUS month abbreviations, as in `formatRadiusExpiration`. -/
def radiusMonths : List String :=
  ["Jan", "Feb", "Mar", "Apr", "May", "Jun",
   "Jul", "Aug", "Sep", "Oct", "Nov", "Dec"]

/-- The month abbreviation selected by a zero-based month index. -/
def monthAbbrev (m : Fin 12) : String :=
  radiusMonths.get ⟨m.val, m.isLt⟩

/-- FreeRADIUS Expiration format: month abbreviation, day of month,
year, then the fixed time of day 23:59:59. -/
def formatRadiusExpiration (d : RDate) : String :=
  monthAbbrev d.month ++ " " ++ natToDec d.day ++ " " ++
    natToDec d.year ++ " 23:59:59"

/- ## radius.service: operations as pure state transformers -/

/-- The Expiration rows created for a subscriber: one row when an
expiry date is present, none otherwise. -/
def expRows (ru : String) (sub : Subscriber) : List RadCheckRow :=
  match sub.expiryDate with
  | some d => [⟨ru, "Expiration", ":=", formatRadiusExpiration d⟩]
  | none => []

/-- The Calling-Station-Id rows created for a subscriber: one row
with the upper-cased MAC when one is present (a JS-truthy string),
none otherwise. -/
def macRows (ru : String) (sub : Subscriber) : List RadCheckRow :=
  match sub.macAddress with
  | some m => if m = "" then [] else [⟨ru, "Calling-Station-Id", ":=", m.toUpper⟩]
  | none => []

/-- `radiusService.syncSubscriberAuth`: inside one transaction,
replace the Cleartext-Password row when a (JS-truthy) password is
supplied, then replace the Expiration row, then replace the
Calling-Station-Id row. -/
def syncSubscriberAuth (tenantSlug : String) (sub : Subscriber)
    (cleartextPassword : Option String) (s : RadiusDb) : RadiusDb :=
  let ru := buildRadiusUsername tenantSlug sub.username
  let c1 :=
    match cleartextPassword with
    | some pw =>
      if pw = "" then s.radCheck
      else delUA ru "Cleartext-Password" s.radCheck ++
        [⟨ru, "Cleartext-Password", ":=", pw⟩]
    | none => s.radCheck
  let c2 := delUA ru "Expiration" c1 ++ expRows ru sub
  let c3 := delUA ru "Calling-Station-Id" c2 ++ macRows ru sub
  { s with radCheck := c3 }

/-- The radcheck effect of `enableSubscriberRadius`: remove the
Auth-Type rows, then replace Expiration, then Calling-Station-Id. -/
def enableCheck (ru : String) (sub : Subscriber)
    (c : List RadCheckRow) : List RadCheckRow :=
  delUA ru "Calling-Station-Id"
      (delUA ru "Expiration" (delUA ru "Auth-Type" c) ++ expRows ru sub) ++
    macRows ru sub

/-- The radusergroup effect of `enableSubscriberRadius`: when the
subscriber has a (JS-truthy) plan id and `findFirst` sees no row for
the username, create one mapping at priority 1. -/
def enableGroup (tenantSlug ru : String) (sub : Subscriber)
    (g : List RadUserGroupRow) : List RadUserGroupRow :=
  match sub.planId with
  | some pid =>
    if pid = "" then g
    else if g.any (fun r => r.username == ru) then g
    else g ++ [⟨ru, buildRadiusGroupname tenantSlug pid, 1⟩]
  | none => g

/-- `radiusService.enableSubscriberRadius`. -/
def enableSubscriberRadius (tenantSlug : String) (sub : Subscriber)
    (s : RadiusDb) : RadiusDb :=
  let ru := buildRadiusUsername tenantSlug sub.username
  { s with
    radCheck := enableCheck ru sub s.radCheck
    radUserGroup := enableGroup tenantSlug ru sub s.radUserGroup }

/-- `radiusService.disableSubscriberRadius`: replace the Auth-Type
row with a hard Reject and delete every radusergroup row for the
username. -/
def disableSubscriberRadius (tenantSlug username : String)
    (s : RadiusDb) : RadiusDb :=
  let ru := buildRadiusUsername tenantSlug username
  { s with
    radCheck := delUA ru "Auth-Type" s.radCheck ++
      [⟨ru, "Auth-Type", ":=", "Reject"⟩]
    radUserGroup := s.radUserGroup.filter fun r => !(r.username == ru) }

/-- `String(plan.simultaneousDevices || 1)`: the simultaneous-device
limit with JS falsy values (null, zero) defaulting to 1. -/
def simUse (plan : Plan) : Nat :=
  match plan.simultaneousDevices with
  | some n => if n = 0 then 1 else n
  | none => 1

/-- `radiusService.syncPlanBandwidth`: delete all radgroupreply and
radgroupcheck rows for the plan's group name, re-insert the reply
attributes from `planToRadiusAttributes`, then insert the single
Simultaneous-Use group check row. -/
def syncPlanBandwidth (tenantSlug : String) (plan : Plan)
    (s : RadiusDb) : RadiusDb :=
  let groupname := buildRadiusGroupname tenantSlug plan.id
  { s with
    radGroupReply :=
      (s.radGroupReply.filter fun r => !(r.groupname == groupname)) ++
        (planToRadiusAttributes plan).map
          (fun a => ⟨groupname, a.attr, ":=", a.value, a.priority⟩)
    radGroupCheck :=
      (s.radGroupCheck.filter fun r => !(r.groupname == groupname)) ++
        [⟨groupname, "Simultaneous-Use", ":=", natToDec (simUse plan)⟩] }

/- ## radius.service: accounting reconciliation -/

/-- One radacct accounting row; times are epoch milliseconds. -/
structure RadAcctRow where
  username : String
  acctstarttime : Int
  acctstoptime : Option Int
  acctupdatetime : Option Int
  acctterminatecause : String
  nasipaddress : String
deriving DecidableEq

/-- The Prisma `where` filter of `cleanupStaleSessions`: still-open
row whose last interim update is older than the threshold, or which
has no update at all and started before the threshold.  A `lt`
comparison on a null column matches nothing. -/
def radAcctStale (threshold : Int) (r : RadAcctRow) : Bool :=
  r.acctstoptime.isNone &&
    ((match r.acctupdatetime with
      | some u => decide (u < threshold)
      | none => false) ||
     (r.acctupdatetime.isNone && decide (r.acctstarttime < threshold)))

/-- The optional tenant scoping of `cleanupStaleSessions`:
`username.startsWith(tenantSlug + "_")`. -/
def tenantScope (tenantSlug : Option String) (r : RadAcctRow) : Bool :=
  match tenantSlug with
  | some t => (t ++ "_").data.isPrefixOf r.username.data
  | none => true

/-- `radiusService.cleanupStaleSessions`: close (stop-time `now`,
termination cause `Stale-Session`) every matching row; also return
the update count. -/
def cleanupStaleSessions (tenantSlug : Option String)
    (staleThresholdMinutes : Nat) (now : Int)
    (tbl : List RadAcctRow) : List RadAcctRow × Nat :=
  let threshold : Int := now - staleThresholdMinutes * 60 * 1000
  let isStale := fun r =>
    radAcctStale threshold r && tenantScope tenantSlug r
  (tbl.map fun r =>
      if isStale r then
        { r with acctstoptime := some now,
                 acctterminatecause := "Stale-Session" }
      else r,
   tbl.countP isStale)

/- ## radius.service: device control client -/

/-- Modelled from the spec: the CoA client (`sendCoaDisconnect` and
`sendCoaChangeRate` of `@/lib/radius-client`, whose source is not
among the files here) resolves to `true` exactly on an acknowledged
success, resolves to `false` on a negative acknowledgment or timeout,
and rejects (throws) on a transport error; an outcome is therefore
`Except.ok ack` or `Except.error e`. -/
def CoaSendOutcome : Type := Except String Bool

/-- `radiusService.disconnectUser`: forward the CoA acknowledgment
boolean; a thrown error is caught and becomes `false`. -/
def disconnectUser (sendOutcome : CoaSendOutcome) : Bool :=
  match sendOutcome with
  | Except.ok success => success
  | Except.error _ => false

/-- `radiusService.changeUserBandwidth`: forward the CoA
acknowledgment boolean; a thrown error is caught and becomes
`false`. -/
def changeUserBandwidth (sendOutcome : CoaSendOutcome) : Bool :=
  match sendOutcome with
  | Except.ok success => success
  | Except.error _ => false

/- ## Helper lemmas: decimal digits -/

theorem decDigitsCore_sound (fuel : Nat) :
    ∀ (n : Nat) (acc : List Char), n < fuel →
      decDigitsCore fuel n acc = decDigitsRec n ++ acc := by
  induction fuel with
  | zero => intro n acc h; omega
  | succ f ih =>
    intro n acc h
    rw [decDigitsCore]
    by_cases h10 : n / 10 = 0
    · have hn : n < 10 := by omega
      rw [if_pos h10, decDigitsRec, dif_pos hn]
      simp
    · have hn : ¬ n < 10 := by omega
      rw [if_neg h10, ih (n / 10) _ (by omega)]
      conv_rhs => rw [decDigitsRec, dif_neg hn]
      simp

theorem natToDec_data (n : Nat) : (natToDec n).data = decDigitsRec n := by
  show decDigitsCore (n + 1) n [] = decDigitsRec n
  rw [decDigitsCore_sound (n + 1) n [] (Nat.lt_succ_self n), List.append_nil]

theorem decDigit_digit (n : Nat) :
    decDigit n ∈ (['0', '1', '2', '3', '4', '5', '6', '7', '8', '9'] : List Char) := by
  have h : n % 10 < 10 := Nat.mod_lt _ (by omega)
  have key : ∀ m, m < 10 →
      Char.ofNat (48 + m) ∈
        (['0', '1', '2', '3', '4', '5', '6', '7', '8', '9'] : List Char) := by decide
  simpa [decDigit] using key (n % 10) h

theorem mem_decDigitsRec_digit (n : Nat) :
    ∀ c ∈ decDigitsRec n,
      c ∈ (['0', '1', '2', '3', '4', '5', '6', '7', '8', '9'] : List Char) := by
  induction n using Nat.strong_induction_on with
  | _ n ih =>
    intro c hc
    rw [decDigitsRec] at hc
    by_cases h : n < 10
    · rw [dif_pos h] at hc
      simp only [List.mem_singleton] at hc
      exact hc ▸ decDigit_digit n
    · rw [dif_neg h] at hc
      rcases List.mem_append.mp hc with h1 | h1
      · exact ih (n / 10) (Nat.div_lt_self (by omega) (by omega)) c h1
      · simp only [List.mem_singleton] at h1
        exact h1 ▸ decDigit_digit n

theorem natToDec_no_space (n : Nat) : spaceChar ∉ (natToDec n).data := by
  rw [natToDec_data]
  intro h
  have := mem_decDigitsRec_digit n spaceChar h
  revert this
  decide

theorem natToDec_no_underscore (n : Nat) : '_' ∉ (natToDec n).data := by
  rw [natToDec_data]
  intro h
  have := mem_decDigitsRec_digit n '_' h
  simp at this

theorem decDigitsRec_length_lt10 (n : Nat) (h : n < 10) :
    (decDigitsRec n).length = 1 := by
  rw [decDigitsRec, dif_pos h]
  rfl

theorem decDigitsRec_length_step (n : Nat) (h : ¬ n < 10) :
    (decDigitsRec n).length = (decDigitsRec (n / 10)).length + 1 := by
  rw [decDigitsRec, dif_neg h]
  simp

theorem natToDec_length_four (y : Nat) (h1 : 1000 ≤ y) (h2 : y < 10000) :
    (natToDec y).length = 4 := by
  show (natToDec y).data.length = 4
  rw [natToDec_data]
  rw [decDigitsRec_length_step y (by omega)]
  rw [decDigitsRec_length_step (y / 10) (by omega)]
  rw [decDigitsRec_length_step (y / 10 / 10) (by omega)]
  rw [decDigitsRec_length_lt10 (y / 10 / 10 / 10) (by omega)]

/- ## Helper lemmas: split and join -/

theorem splitOnChar_ne_nil (sep : Char) (l : List Char) :
    splitOnChar sep l ≠ [] := by
  cases l with
  | nil => simp [splitOnChar]
  | cons c cs =>
    rw [splitOnChar]
    by_cases h : c = sep
    · simp [h]
    · rw [if_neg h]
      rcases hs : splitOnChar sep cs with _ | ⟨r, rs⟩ <;> simp

theorem splitOnChar_no_sep (sep : Char) (l : List Char) (h : sep ∉ l) :
    splitOnChar sep l = [l] := by
  induction l with
  | nil => rfl
  | cons c cs ih =>
    have hc : ¬ c = sep := fun hc => h (hc ▸ List.mem_cons_self c cs)
    have hcs : sep ∉ cs := fun hm => h (List.mem_cons_of_mem c hm)
    rw [splitOnChar, if_neg hc, ih hcs]

theorem splitOnChar_append (sep : Char) (a b : List Char) (h : sep ∉ a) :
    splitOnChar sep (a ++ sep :: b) = a :: splitOnChar sep b := by
  induction a with
  | nil => simp [splitOnChar]
  | cons c a' ih =>
    have hc : ¬ c = sep := fun hc => h (hc ▸ List.mem_cons_self c a')
    have ha' : sep ∉ a' := fun hm => h (List.mem_cons_of_mem c hm)
    rw [List.cons_append, splitOnChar, if_neg hc, ih ha']

theorem joinSep_cons_cons (sep : Char) (x y : List Char)
    (ys : List (List Char)) :
    joinSep sep (x :: y :: ys) = x ++ sep :: joinSep sep (y :: ys) := rfl

theorem joinSep_single (sep : Char) (x : List Char) :
    joinSep sep [x] = x := rfl

theorem joinSep_splitOnChar (sep : Char) (l : List Char) :
    joinSep sep (splitOnChar sep l) = l := by
  induction l with
  | nil => rfl
  | cons c cs ih =>
    rw [splitOnChar]
    by_cases h : c = sep
    · rw [if_pos h]
      rcases hs : splitOnChar sep cs with _ | ⟨r, rs⟩
      · exact absurd hs (splitOnChar_ne_nil sep cs)
      · rw [hs] at ih
        rw [joinSep_cons_cons, h, ih]
        rfl
    · rw [if_neg h]
      rcases hs : splitOnChar sep cs with _ | ⟨r, rs⟩
      · exact absurd hs (splitOnChar_ne_nil sep cs)
      · rw [hs] at ih
        show joinSep sep ((c :: r) :: rs) = c :: cs
        cases rs with
        | nil =>
          rw [joinSep_single] at ih
          rw [joinSep_single, ih]
        | cons r2 rs2 =>
          rw [joinSep_cons_cons] at ih
          rw [joinSep_cons_cons, List.cons_append, ih]

/- ## Claim C4: username round-trip -/

/-- C4: for every pair of strings (tenant, localUsername) where the
tenant contains no underscore, `extractSubscriberUsername` applied to
`buildRadiusUsername tenant localUsername` returns `localUsername`,
including when the local username itself contains underscores. -/
theorem C4_username_roundtrip (tenant localUsername : String)
    (h : '_' ∉ tenant.data) :
    extractSubscriberUsername (buildRadiusUsername tenant localUsername) =
      localUsername := by
  unfold extractSubscriberUsername buildRadiusUsername
  have hdata : (tenant ++ "_" ++ localUsername).data =
      tenant.data ++ '_' :: localUsername.data := by
    simp [String.data_append]
  rw [hdata, splitOnChar_append _ _ _ h, List.tail_cons, joinSep_splitOnChar]

/-- Witness for C4 at a concrete tenant and underscore-containing
local username. -/
theorem C4_username_roundtrip_witness :
    '_' ∉ ("acme" : String).data ∧
    extractSubscriberUsername (buildRadiusUsername "acme" "al_ice") =
      "al_ice" :=
  ⟨by decide, C4_username_roundtrip "acme" "al_ice" (by decide)⟩

/- ## Helper lemmas: the rate-limit string has no stray spaces -/

theorem no_space_append {s t : String} (hs : spaceChar ∉ s.data)
    (ht : spaceChar ∉ t.data) : spaceChar ∉ (s ++ t).data := by
  rw [String.data_append]
  intro hm
  rcases List.mem_append.mp hm with h | h
  exacts [hs h, ht h]

theorem no_space_rlUnit (plan : Plan) : spaceChar ∉ (rlUnit plan).data := by
  unfold rlUnit
  split <;> decide

theorem no_space_rlRx (plan : Plan) : spaceChar ∉ (rlRx plan).data :=
  no_space_append (natToDec_no_space _) (no_space_rlUnit plan)

theorem no_space_rlTx (plan : Plan) : spaceChar ∉ (rlTx plan).data :=
  no_space_append (natToDec_no_space _) (no_space_rlUnit plan)

theorem no_space_rlBurstRx (plan : Plan) :
    spaceChar ∉ (rlBurstRx plan).data :=
  no_space_append (natToDec_no_space _) (no_space_rlUnit plan)

theorem no_space_rlBurstTx (plan : Plan) :
    spaceChar ∉ (rlBurstTx plan).data :=
  no_space_append (natToDec_no_space _) (no_space_rlUnit plan)

theorem no_space_rlThreshold (plan : Plan) :
    spaceChar ∉ (rlThreshold plan).data := by
  unfold rlThreshold
  split
  · exact no_space_append (natToDec_no_space _) (by decide)
  · decide

theorem no_space_rlTime (plan : Plan) : spaceChar ∉ (rlTime plan).data :=
  no_space_append
    (no_space_append
      (no_space_append (natToDec_no_space _) (by decide))
      (natToDec_no_space _))
    (by decide)

/-- Splitting five space-free blocks joined by single spaces yields
exactly those five blocks. -/
theorem splitOnChar_five (a b c d e : List Char)
    (ha : spaceChar ∉ a) (hb : spaceChar ∉ b) (hc : spaceChar ∉ c)
    (hd : spaceChar ∉ d) (he : spaceChar ∉ e) :
    splitOnChar spaceChar
        (a ++ spaceChar ::
          (b ++ spaceChar :: (c ++ spaceChar :: (d ++ spaceChar :: e)))) =
      [a, b, c, d, e] := by
  rw [splitOnChar_append _ _ _ ha, splitOnChar_append _ _ _ hb,
    splitOnChar_append _ _ _ hc, splitOnChar_append _ _ _ hd,
    splitOnChar_no_sep _ _ he]

theorem data_space : (" " : String).data = [spaceChar] := by decide

/-- In the burst case the rate-limit string is five space-separated
fields: base rates, burst rates, threshold pair, burst-time pair, and
priority, in that order. -/
theorem buildMikroTikRateLimit_burst_split (plan : Plan)
    (hd : plan.burstDownloadSpeed.getD 0 ≠ 0)
    (hu : plan.burstUploadSpeed.getD 0 ≠ 0)
    (ht : plan.burstTime.getD 0 ≠ 0) :
    splitOnChar spaceChar (buildMikroTikRateLimit plan).data =
      [(rlRx plan ++ "/" ++ rlTx plan).data,
       (rlBurstRx plan ++ "/" ++ rlBurstTx plan).data,
       (rlThreshold plan ++ "/" ++ rlThreshold plan).data,
       (rlTime plan).data,
       (natToDec plan.priority).data] := by
  have hcond : plan.burstDownloadSpeed.getD 0 ≠ 0 ∧
      plan.burstUploadSpeed.getD 0 ≠ 0 ∧ plan.burstTime.getD 0 ≠ 0 :=
    ⟨hd, hu, ht⟩
  have hdata : (buildMikroTikRateLimit plan).data =
      (rlRx plan ++ "/" ++ rlTx plan).data ++ spaceChar ::
        ((rlBurstRx plan ++ "/" ++ rlBurstTx plan).data ++ spaceChar ::
          ((rlThreshold plan ++ "/" ++ rlThreshold plan).data ++ spaceChar ::
            ((rlTime plan).data ++ spaceChar ::
              (natToDec plan.priority).data))) := by
    rw [buildMikroTikRateLimit, if_pos hcond]
    simp [String.data_append, data_space]
    all_goals decide
  rw [hdata]
  apply splitOnChar_five
  · exact no_space_append
      (no_space_append (no_space_rlRx plan) (by decide)) (no_space_rlTx plan)
  · exact no_space_append
      (no_space_append (no_space_rlBurstRx plan) (by decide))
      (no_space_rlBurstTx plan)
  · exact no_space_append
      (no_space_append (no_space_rlThreshold plan) (by decide))
      (no_space_rlThreshold plan)
  · exact no_space_rlTime plan
  · exact natToDec_no_space _

/- ## Example plans from the specification -/

/-- The example plan `{download:50, upload:30, unit:MBPS}` with no
burst configuration. -/
def examplePlanNoBurst : Plan :=
  ⟨"plan1", 50, 30, SpeedUnit.MBPS, none, none, none, none, 1, none,
   30, ValidityUnit.DAYS, none⟩

/-- The example plan with full burst configuration
`{burstDownload:100, burstUpload:50, burstThreshold:100, burstTime:10,
priority:1}`. -/
def examplePlanBurst : Plan :=
  { examplePlanNoBurst with
    burstDownloadSpeed := some 100
    burstUploadSpeed := some 50
    burstThreshold := some 100
    burstTime := some 10
    priority := 1 }

/-- `examplePlanBurst` with the burst threshold absent. -/
def examplePlanBurstNoThreshold : Plan :=
  { examplePlanBurst with burstThreshold := none }

/- ## Claim C2: rate-limit string forms -/

/-- C2: with any burst field missing or zero the rate-limit string is
exactly the two-field base form (unit from the speed unit); with all
three burst fields present and non-zero it is exactly five
space-separated fields in the documented order; in particular the two
spec examples hold verbatim. -/
theorem C2_rate_limit_forms (plan : Plan) :
    (plan.burstDownloadSpeed.getD 0 = 0 ∨ plan.burstUploadSpeed.getD 0 = 0 ∨
        plan.burstTime.getD 0 = 0 →
      buildMikroTikRateLimit plan =
        natToDec plan.downloadSpeed ++ rlUnit plan ++ "/" ++
          natToDec plan.uploadSpeed ++ rlUnit plan) ∧
    (plan.burstDownloadSpeed.getD 0 ≠ 0 → plan.burstUploadSpeed.getD 0 ≠ 0 →
        plan.burstTime.getD 0 ≠ 0 →
      splitOnChar spaceChar (buildMikroTikRateLimit plan).data =
        [(rlRx plan ++ "/" ++ rlTx plan).data,
         (rlBurstRx plan ++ "/" ++ rlBurstTx plan).data,
         (rlThreshold plan ++ "/" ++ rlThreshold plan).data,
         (rlTime plan).data,
         (natToDec plan.priority).data]) ∧
    buildMikroTikRateLimit examplePlanNoBurst = "50M/30M" ∧
    buildMikroTikRateLimit examplePlanBurst =
      "50M/30M 100M/50M 100k/100k 10s/10s 1" := by
  refine ⟨?_, ?_, by decide, by decide⟩
  · intro h
    rw [buildMikroTikRateLimit, if_neg (by tauto)]
    apply String.ext
    simp [rlRx, rlTx, String.data_append]
  · exact buildMikroTikRateLimit_burst_split plan

/-- Witness for C2 at the burst example plan. -/
theorem C2_rate_limit_forms_witness :
    splitOnChar spaceChar (buildMikroTikRateLimit examplePlanBurst).data =
      [(rlRx examplePlanBurst ++ "/" ++ rlTx examplePlanBurst).data,
       (rlBurstRx examplePlanBurst ++ "/" ++ rlBurstTx examplePlanBurst).data,
       (rlThreshold examplePlanBurst ++ "/" ++
         rlThreshold examplePlanBurst).data,
       (rlTime examplePlanBurst).data,
       (natToDec examplePlanBurst.priority).data] :=
  (C2_rate_limit_forms examplePlanBurst).2.1 (by decide) (by decide)
    (by decide)

/- ## Claim C3: zero burst threshold field -/

/-- C3 counterexample: with burst configured but the threshold
absent, the third space-separated field of the rate-limit string is
not the claimed `0k/0k`. -/
theorem C3_counterexample :
    (splitOnChar spaceChar
        (buildMikroTikRateLimit examplePlanBurstNoThreshold).data)[2]? ≠
      some ("0k/0k" : String).data := by
  decide

/-- C3 (amended): with burst download, upload and duration present
and non-zero but the threshold absent or zero, the third
space-separated field of the rate-limit string is `0/0` — the zero
threshold is emitted without the `k` suffix. -/
theorem C3_zero_threshold_field (plan : Plan)
    (hd : plan.burstDownloadSpeed.getD 0 ≠ 0)
    (hu : plan.burstUploadSpeed.getD 0 ≠ 0)
    (ht : plan.burstTime.getD 0 ≠ 0)
    (hth : plan.burstThreshold.getD 0 = 0) :
    (splitOnChar spaceChar (buildMikroTikRateLimit plan).data)[2]? =
      some ("0/0" : String).data := by
  rw [buildMikroTikRateLimit_burst_split plan hd hu ht]
  have hthr : rlThreshold plan = "0" := by
    rw [rlThreshold, if_neg (by omega)]
  simp [hthr]

/-- Witness for the amended C3 at the thresholdless burst plan. -/
theorem C3_zero_threshold_field_witness :
    (splitOnChar spaceChar
        (buildMikroTikRateLimit examplePlanBurstNoThreshold).data)[2]? =
      some ("0/0" : String).data :=
  C3_zero_threshold_field examplePlanBurstNoThreshold (by decide)
    (by decide) (by decide) (by decide)

/- ## Claim C8: expiration attribute format -/

theorem no_space_monthAbbrev : ∀ m : Fin 12,
    spaceChar ∉ (monthAbbrev m).data := by decide

theorem data_time_suffix :
    (" 23:59:59" : String).data = spaceChar :: ("23:59:59" : String).data := by
  decide

/-- C8 counterexample: the expiration value is not fixed-width — a
one-digit day yields a 19-character string while a two-digit day in
the same month and year yields 20 characters. -/
theorem C8_counterexample :
    (formatRadiusExpiration ⟨0, 5, 2025⟩).length ≠
      (formatRadiusExpiration ⟨0, 15, 2025⟩).length := by
  decide

/-- C8 (amended): for every date the expiration value is the
three-letter month abbreviation, a space, the unpadded decimal day of
month (variable width), a space, the decimal year (4 digits for years
1000-9999), a space, and the fixed time-of-day 23:59:59. -/
theorem C8_expiration_format (d : RDate) (h1 : 1000 ≤ d.year)
    (h2 : d.year < 10000) :
    splitOnChar spaceChar (formatRadiusExpiration d).data =
        [(monthAbbrev d.month).data, (natToDec d.day).data,
         (natToDec d.year).data, ("23:59:59" : String).data] ∧
      (monthAbbrev d.month).length = 3 ∧ (natToDec d.year).length = 4 := by
  refine ⟨?_, ?_, natToDec_length_four d.year h1 h2⟩
  · have hdata : (formatRadiusExpiration d).data =
        (monthAbbrev d.month).data ++ spaceChar ::
          ((natToDec d.day).data ++ spaceChar ::
            ((natToDec d.year).data ++ spaceChar ::
              ("23:59:59" : String).data)) := by
      rw [formatRadiusExpiration]
      simp [String.data_append, data_space, data_time_suffix]
      all_goals decide
    rw [hdata, splitOnChar_append _ _ _ (no_space_monthAbbrev d.month),
      splitOnChar_append _ _ _ (natToDec_no_space _),
      splitOnChar_append _ _ _ (natToDec_no_space _),
      splitOnChar_no_sep _ _ (by decide)]
  · have h3 : ∀ m : Fin 12, (monthAbbrev m).length = 3 := by decide
    exact h3 d.month

/-- Witness for the amended C8 at January 5, 2025. -/
theorem C8_expiration_format_witness :
    splitOnChar spaceChar
        (formatRadiusExpiration ⟨0, 5, 2025⟩).data =
        [(monthAbbrev (0 : Fin 12)).data, (natToDec 5).data,
         (natToDec 2025).data, ("23:59:59" : String).data] ∧
      (monthAbbrev (0 : Fin 12)).length = 3 ∧ (natToDec 2025).length = 4 :=
  C8_expiration_format ⟨0, 5, 2025⟩ (by decide) (by decide)

/- ## Claim C9: control-plane boolean outcomes -/

/-- C9: the control-plane wrappers are total Boolean functions of the
CoA send outcome — a thrown transport error or a negative
acknowledgment yields `false`, and `true` is returned exactly when
the underlying send resolved with an acknowledged success. -/
theorem C9_control_plane_boolean (r : CoaSendOutcome) :
    (disconnectUser r = true ↔ r = Except.ok true) ∧
    (changeUserBandwidth r = true ↔ r = Except.ok true) ∧
    (disconnectUser r = false ↔
      r = Except.ok false ∨ ∃ e, r = Except.error e) ∧
    (changeUserBandwidth r = false ↔
      r = Except.ok false ∨ ∃ e, r = Except.error e) := by
  rcases r with e | b
  · simp [disconnectUser, changeUserBandwidth]
  · cases b <;> simp [disconnectUser, changeUserBandwidth] <;>
      intro h <;> injection h with h2 <;> exact Bool.noConfusion h2

/- ## Claim C7: stale-session cleanup -/

instance decUpdateOlder (o : Option Int) (t : Int) :
    Decidable (∃ u, o = some u ∧ u < t) :=
  match o with
  | some u => decidable_of_iff (u < t) (by simp)
  | none => isFalse (by simp)

/-- A still-open accounting row with no interim update that started
20 minutes before `now = 0` (times in epoch milliseconds). -/
def staleExampleOld : RadAcctRow :=
  ⟨"t_alice", -1200000, none, none, "", "10.0.0.1"⟩

/-- The same row started only 10 minutes before `now = 0`. -/
def staleExampleRecent : RadAcctRow :=
  ⟨"t_alice", -600000, none, none, "", "10.0.0.1"⟩

/-- C7: `cleanupStaleSessions` closes exactly the rows with a null
stop time whose last update is older than the threshold, or with no
update at all and a start time older than the threshold, setting the
stop time to now and the termination cause to the sentinel; at the
default 15-minute threshold the 20-minute-old updateless row is
closed and the 10-minute-old one is left open. -/
theorem C7_cleanup_stale (thrMin : Nat) (now : Int)
    (tbl : List RadAcctRow) :
    (cleanupStaleSessions none thrMin now tbl).1 =
        tbl.map (fun r =>
          if r.acctstoptime = none ∧
              ((∃ u, r.acctupdatetime = some u ∧
                  u < now - thrMin * 60 * 1000) ∨
               (r.acctupdatetime = none ∧
                  r.acctstarttime < now - thrMin * 60 * 1000))
          then { r with acctstoptime := some now,
                        acctterminatecause := "Stale-Session" }
          else r) ∧
      (cleanupStaleSessions none 15 0 [staleExampleOld]).1 =
        [{ staleExampleOld with acctstoptime := some 0,
                                acctterminatecause := "Stale-Session" }] ∧
      (cleanupStaleSessions none 15 0 [staleExampleRecent]).1 =
        [staleExampleRecent] := by
  refine ⟨?_, by decide, by decide⟩
  unfold cleanupStaleSessions
  apply List.map_congr_left
  intro r _
  rcases r with ⟨un, st, stop, upd, cause, nas⟩
  cases stop <;> cases upd <;>
    simp [radAcctStale, tenantScope]

/- ## Helper lemmas: delete-then-insert filters -/

theorem filter_idem {α : Type} (p : α → Bool) (l : List α) :
    (l.filter p).filter p = l.filter p := by
  rw [List.filter_filter]
  apply List.filter_congr
  intro a _
  rw [Bool.and_self]

theorem filter_not_filter {α : Type} (p : α → Bool) (l : List α) :
    (l.filter (fun a => !(p a))).filter p = [] := by
  rw [List.filter_filter]
  refine List.filter_eq_nil_iff.mpr ?_
  intro a _
  cases p a <;> simp

/-- Deleting (username, attribute) does not disturb rows carrying a
different attribute. -/
theorem filter_attr_delUA (u a b : String) (h : b ≠ a)
    (l : List RadCheckRow) :
    (delUA u a l).filter (fun r => r.attr == b) =
      l.filter (fun r => r.attr == b) := by
  unfold delUA
  rw [List.filter_filter]
  apply List.filter_congr
  intro r _
  by_cases hb : r.attr = b
  · have ha : (r.attr == a) = false := by
      apply beq_eq_false_iff_ne.mpr
      rw [hb]; exact h
    simp [matchUA, hb, ha]
    exact Or.inr h
  · have hb2 : (r.attr == b) = false := beq_eq_false_iff_ne.mpr hb
    simp [hb2]

/-- After deleting (username, attribute), no row matches that pair. -/
theorem filterUA_delUA_same (u a : String) (l : List RadCheckRow) :
    (delUA u a l).filter (matchUA u a) = [] :=
  filter_not_filter (matchUA u a) l

/-- Deleting one attribute does not disturb rows matching the same
username but a different attribute. -/
theorem filterUA_delUA_other (u a b : String) (h : b ≠ a)
    (l : List RadCheckRow) :
    (delUA u a l).filter (matchUA u b) = l.filter (matchUA u b) := by
  unfold delUA
  rw [List.filter_filter]
  apply List.filter_congr
  intro r _
  by_cases hb : matchUA u b r = true
  · have ha : (r.attr == a) = false := by
      apply beq_eq_false_iff_ne.mpr
      have : r.attr = b := by
        have := hb
        unfold matchUA at this
        simp at this
        exact this.2
      rw [this]; exact h
    have hua : matchUA u a r = false := by
      unfold matchUA
      rw [ha, Bool.and_false]
    simp [hb, hua]
  · have hb2 : matchUA u b r = false := by
      cases hm : matchUA u b r
      · rfl
      · exact absurd hm hb
    simp [hb2]

/-- The Expiration rows all match (username, Expiration). -/
theorem filterUA_expRows_self (ru : String) (sub : Subscriber) :
    (expRows ru sub).filter (matchUA ru "Expiration") = expRows ru sub := by
  unfold expRows
  cases sub.expiryDate <;> simp [matchUA]

/-- The Expiration rows never match (username, Calling-Station-Id). -/
theorem filterUA_expRows_csid (ru : String) (sub : Subscriber) :
    (expRows ru sub).filter (matchUA ru "Calling-Station-Id") = [] := by
  unfold expRows
  cases sub.expiryDate <;> simp [matchUA]

/-- The MAC rows all match (username, Calling-Station-Id). -/
theorem filterUA_macRows_self (ru : String) (sub : Subscriber) :
    (macRows ru sub).filter (matchUA ru "Calling-Station-Id") =
      macRows ru sub := by
  unfold macRows
  rcases sub.macAddress with _ | m
  · simp
  · by_cases hm : m = "" <;> simp [hm, matchUA]

/-- The MAC rows never match (username, Expiration). -/
theorem filterUA_macRows_exp (ru : String) (sub : Subscriber) :
    (macRows ru sub).filter (matchUA ru "Expiration") = [] := by
  unfold macRows
  rcases sub.macAddress with _ | m
  · simp
  · by_cases hm : m = "" <;> simp [hm, matchUA]

/-- The Expiration rows are not Cleartext-Password rows. -/
theorem filter_cp_expRows (ru : String) (sub : Subscriber) :
    (expRows ru sub).filter (fun r => r.attr == "Cleartext-Password") =
      [] := by
  unfold expRows
  cases sub.expiryDate <;> simp

/-- The MAC rows are not Cleartext-Password rows. -/
theorem filter_cp_macRows (ru : String) (sub : Subscriber) :
    (macRows ru sub).filter (fun r => r.attr == "Cleartext-Password") =
      [] := by
  unfold macRows
  rcases sub.macAddress with _ | m
  · simp
  · by_cases hm : m = "" <;> simp [hm]

/- ## Claim C1: disabling forces reject and strips memberships -/

/-- C1: after `disableSubscriberRadius`, from any starting state, the
check table contains the hard Auth-Type Reject row for the namespaced
username and the user-group membership table holds zero rows for that
username. -/
theorem C1_disable_reject_no_groups (tenant username : String)
    (s : RadiusDb) :
    (⟨buildRadiusUsername tenant username, "Auth-Type", ":=", "Reject"⟩ :
        RadCheckRow) ∈
          (disableSubscriberRadius tenant username s).radCheck ∧
      (disableSubscriberRadius tenant username s).radUserGroup.filter
          (fun r => r.username == buildRadiusUsername tenant username) =
        [] := by
  constructor
  · exact List.mem_append_right _ (List.mem_singleton_self _)
  · exact filter_not_filter _ s.radUserGroup

/- ## Claim C10: password-less auth sync -/

/-- C10: `syncSubscriberAuth` with no cleartext password leaves every
Cleartext-Password row in the check table unchanged, replaces the
(username, Expiration) rows with exactly the rows derived from the
subscriber's expiry date (none when it is absent), replaces the
(username, Calling-Station-Id) rows with exactly the rows derived
from the MAC address (none when it is absent), and touches no other
table. -/
theorem C10_sync_auth_no_password (tenant : String) (sub : Subscriber)
    (s : RadiusDb) :
    (syncSubscriberAuth tenant sub none s).radCheck.filter
        (fun r => r.attr == "Cleartext-Password") =
      s.radCheck.filter (fun r => r.attr == "Cleartext-Password") ∧
    (syncSubscriberAuth tenant sub none s).radCheck.filter
        (matchUA (buildRadiusUsername tenant sub.username) "Expiration") =
      expRows (buildRadiusUsername tenant sub.username) sub ∧
    (syncSubscriberAuth tenant sub none s).radCheck.filter
        (matchUA (buildRadiusUsername tenant sub.username)
          "Calling-Station-Id") =
      macRows (buildRadiusUsername tenant sub.username) sub ∧
    (syncSubscriberAuth tenant sub none s).radReply = s.radReply ∧
    (syncSubscriberAuth tenant sub none s).radUserGroup =
      s.radUserGroup := by
  refine ⟨?_, ?_, ?_, rfl, rfl⟩
  · show ((delUA _ "Calling-Station-Id"
        (delUA _ "Expiration" s.radCheck ++ expRows _ sub) ++
          macRows _ sub).filter _) = _
    rw [List.filter_append, filter_cp_macRows,
      filter_attr_delUA _ _ _ (by decide),
      List.filter_append, filter_cp_expRows,
      filter_attr_delUA _ _ _ (by decide)]
    simp
  · show ((delUA _ "Calling-Station-Id"
        (delUA _ "Expiration" s.radCheck ++ expRows _ sub) ++
          macRows _ sub).filter _) = _
    rw [List.filter_append, filterUA_macRows_exp,
      filterUA_delUA_other _ _ _ (by decide),
      List.filter_append, filterUA_delUA_same, filterUA_expRows_self]
    simp
  · show ((delUA _ "Calling-Station-Id"
        (delUA _ "Expiration" s.radCheck ++ expRows _ sub) ++
          macRows _ sub).filter _) = _
    rw [List.filter_append, filterUA_macRows_self, filterUA_delUA_same]
    simp

/- ## Claim C5: plan bandwidth sync is duplication-free -/

/-- Re-inserted reply rows all carry the plan's group name, so the
group-scoped delete of a second sync removes all of them. -/
theorem filter_not_g_mapRows (g : String) (attrs : List RadAttr) :
    ((attrs.map (fun a =>
        (⟨g, a.attr, ":=", a.value, a.priority⟩ : RadGroupReplyRow))).filter
      (fun r => !(r.groupname == g))) = [] := by
  induction attrs with
  | nil => rfl
  | cons a as ih => simp [ih]

/-- C5: running `syncPlanBandwidth` twice on an unchanged plan leaves
exactly one group-check row for the plan's group name — the
Simultaneous-Use row with the (default-1) device limit — and leaves
the group-reply and group-check tables exactly as after a single
run. -/
theorem C5_plan_sync_idempotent (tenant : String) (plan : Plan)
    (s : RadiusDb) :
    (syncPlanBandwidth tenant plan
          (syncPlanBandwidth tenant plan s)).radGroupCheck.filter
        (fun r => r.groupname == buildRadiusGroupname tenant plan.id) =
      [⟨buildRadiusGroupname tenant plan.id, "Simultaneous-Use", ":=",
        natToDec (simUse plan)⟩] ∧
    (syncPlanBandwidth tenant plan
        (syncPlanBandwidth tenant plan s)).radGroupReply =
      (syncPlanBandwidth tenant plan s).radGroupReply ∧
    (syncPlanBandwidth tenant plan
        (syncPlanBandwidth tenant plan s)).radGroupCheck =
      (syncPlanBandwidth tenant plan s).radGroupCheck := by
  have hcheck :
      (syncPlanBandwidth tenant plan
          (syncPlanBandwidth tenant plan s)).radGroupCheck =
        (syncPlanBandwidth tenant plan s).radGroupCheck := by
    show (((s.radGroupCheck.filter _ ++ _).filter _) ++ _) = _
    rw [List.filter_append, filter_idem]
    simp [syncPlanBandwidth]
  refine ⟨?_, ?_, hcheck⟩
  · rw [hcheck]
    show ((s.radGroupCheck.filter _ ++ _).filter _) = _
    rw [List.filter_append, filter_not_filter]
    simp
  · show (((s.radGroupReply.filter _ ++ _).filter _) ++ _) = _
    rw [List.filter_append, filter_idem, filter_not_g_mapRows]
    simp [syncPlanBandwidth]

/- ## Helper lemmas: enable/disable radcheck algebra -/

theorem filter_comm {α : Type} (p q : α → Bool) (l : List α) :
    (l.filter q).filter p = (l.filter p).filter q := by
  rw [List.filter_filter, List.filter_filter]
  apply List.filter_congr
  intro a _
  rw [Bool.and_comm]

theorem delUA_append (u a : String) (l₁ l₂ : List RadCheckRow) :
    delUA u a (l₁ ++ l₂) = delUA u a l₁ ++ delUA u a l₂ :=
  List.filter_append l₁ l₂

theorem delUA_comm (u a u' a' : String) (l : List RadCheckRow) :
    delUA u a (delUA u' a' l) = delUA u' a' (delUA u a l) :=
  filter_comm _ _ l

theorem delUA_idem (u a : String) (l : List RadCheckRow) :
    delUA u a (delUA u a l) = delUA u a l :=
  filter_idem _ l

theorem delUA_expRows_exp (ru : String) (sub : Subscriber) :
    delUA ru "Expiration" (expRows ru sub) = [] := by
  unfold expRows delUA
  cases sub.expiryDate <;> simp [matchUA]

theorem delUA_expRows_at (ru : String) (sub : Subscriber) :
    delUA ru "Auth-Type" (expRows ru sub) = expRows ru sub := by
  unfold expRows delUA
  cases sub.expiryDate <;> simp [matchUA]

theorem delUA_expRows_csid (ru : String) (sub : Subscriber) :
    delUA ru "Calling-Station-Id" (expRows ru sub) = expRows ru sub := by
  unfold expRows delUA
  cases sub.expiryDate <;> simp [matchUA]

theorem delUA_macRows_csid (ru : String) (sub : Subscriber) :
    delUA ru "Calling-Station-Id" (macRows ru sub) = [] := by
  unfold macRows delUA
  rcases sub.macAddress with _ | m
  · simp
  · by_cases hm : m = "" <;> simp [hm, matchUA]

theorem delUA_macRows_at (ru : String) (sub : Subscriber) :
    delUA ru "Auth-Type" (macRows ru sub) = macRows ru sub := by
  unfold macRows delUA
  rcases sub.macAddress with _ | m
  · simp
  · by_cases hm : m = "" <;> simp [hm, matchUA]

theorem delUA_macRows_exp (ru : String) (sub : Subscriber) :
    delUA ru "Expiration" (macRows ru sub) = macRows ru sub := by
  unfold macRows delUA
  rcases sub.macAddress with _ | m
  · simp
  · by_cases hm : m = "" <;> simp [hm, matchUA]

theorem delUA_rejRow (ru : String) :
    delUA ru "Auth-Type"
        [⟨ru, "Auth-Type", ":=", "Reject"⟩] = [] := by
  simp [delUA, matchUA]

/-- The definitional shape of `enableCheck`. -/
theorem enableCheck_def (ru : String) (sub : Subscriber)
    (c : List RadCheckRow) :
    enableCheck ru sub c =
      delUA ru "Calling-Station-Id"
          (delUA ru "Expiration" (delUA ru "Auth-Type" c) ++
            expRows ru sub) ++
        macRows ru sub := rfl

/-- `enableCheck` leaves no Auth-Type row for the username, so a
subsequent Auth-Type delete is a no-op. -/
theorem delAT_enableCheck (ru : String) (sub : Subscriber)
    (c : List RadCheckRow) :
    delUA ru "Auth-Type" (enableCheck ru sub c) = enableCheck ru sub c := by
  unfold enableCheck
  rw [delUA_append, delUA_macRows_at,
    delUA_comm ru "Auth-Type" ru "Calling-Station-Id",
    delUA_append, delUA_expRows_at,
    delUA_comm ru "Auth-Type" ru "Expiration", delUA_idem]

/-- The radcheck effect of enable-disable-enable collapses to a
single enable. -/
theorem ede_check (ru : String) (sub : Subscriber) (c : List RadCheckRow) :
    enableCheck ru sub
        (delUA ru "Auth-Type" (enableCheck ru sub c) ++
          [⟨ru, "Auth-Type", ":=", "Reject"⟩]) =
      enableCheck ru sub c := by
  rw [delAT_enableCheck]
  conv_lhs => rw [enableCheck_def]
  rw [delUA_append ru "Auth-Type", delAT_enableCheck, delUA_rejRow,
    List.append_nil]
  rw [enableCheck_def ru sub c]
  rw [delUA_append ru "Expiration", delUA_macRows_exp,
    delUA_comm ru "Expiration" ru "Calling-Station-Id",
    delUA_append ru "Expiration", delUA_idem, delUA_expRows_exp,
    List.append_nil]
  rw [delUA_append ru "Calling-Station-Id",
    delUA_append ru "Calling-Station-Id",
    delUA_idem, delUA_macRows_csid, delUA_expRows_csid, List.append_nil]
  rw [delUA_append ru "Calling-Station-Id", delUA_expRows_csid]

/-- The radusergroup effect of enable-disable-enable collapses to a
single enable, provided the starting table has no row for the
username. -/
theorem ede_group (tenantSlug ru : String) (sub : Subscriber)
    (g : List RadUserGroupRow)
    (h : ∀ r ∈ g, (r.username == ru) = false) :
    enableGroup tenantSlug ru sub
        ((enableGroup tenantSlug ru sub g).filter
          (fun r => !(r.username == ru))) =
      enableGroup tenantSlug ru sub g := by
  have hfg : g.filter (fun r => !(r.username == ru)) = g :=
    List.filter_eq_self.mpr (fun r hr => by rw [h r hr]; rfl)
  have hany : g.any (fun r => r.username == ru) = false := by
    rw [List.any_eq_false]
    intro r hr
    rw [h r hr]
    simp
  rcases hp : sub.planId with _ | pid
  · simp [enableGroup, hp, hfg]
  · by_cases hpe : pid = ""
    · simp [enableGroup, hp, hpe, hfg]
    · simp [enableGroup, hp, hpe, hany, List.filter_append, hfg]

/- ## Claim C6: enable-disable-enable convergence -/

/-- A subscriber with a plan and neither expiry date nor MAC
binding. -/
def c6Subscriber : Subscriber := ⟨"u", none, none, some "p", none⟩

/-- A starting state holding a stale membership row for `t_u` that
points at a different group. -/
def c6StartState : RadiusDb :=
  ⟨[], [], [⟨"t_u", "t_old", 7⟩], [], []⟩

/-- C6 counterexample: from a starting state with a stale membership
row, enable-disable-enable does not equal a single enable — the
single enable keeps the stale row (`findFirst` sees an existing row
and creates nothing), while the toggled sequence replaces it with a
fresh priority-1 mapping to the plan's group. -/
theorem C6_counterexample :
    enableSubscriberRadius "t" c6Subscriber
        (disableSubscriberRadius "t" c6Subscriber.username
          (enableSubscriberRadius "t" c6Subscriber c6StartState)) ≠
      enableSubscriberRadius "t" c6Subscriber c6StartState := by
  decide

/-- C6 (amended): provided the starting state holds no membership row
for the namespaced username, enable followed by disable followed by
enable leaves every table exactly as a single direct enable does. -/
theorem C6_enable_disable_enable (tenantSlug : String) (sub : Subscriber)
    (s : RadiusDb)
    (h : ∀ r ∈ s.radUserGroup,
      (r.username == buildRadiusUsername tenantSlug sub.username) = false) :
    enableSubscriberRadius tenantSlug sub
        (disableSubscriberRadius tenantSlug sub.username
          (enableSubscriberRadius tenantSlug sub s)) =
      enableSubscriberRadius tenantSlug sub s := by
  rcases s with ⟨c, rep, g, gr, gc⟩
  simp only [enableSubscriberRadius, disableSubscriberRadius] at h ⊢
  congr 1
  · exact ede_check _ sub c
  · exact ede_group tenantSlug _ sub g h

/-- Witness for the amended C6 from the empty database. -/
theorem C6_enable_disable_enable_witness :
    enableSubscriberRadius "t" c6Subscriber
        (disableSubscriberRadius "t" c6Subscriber.username
          (enableSubscriberRadius "t" c6Subscriber ⟨[], [], [], [], []⟩)) =
      enableSubscriberRadius "t" c6Subscriber ⟨[], [], [], [], []⟩ :=
  C6_enable_disable_enable "t" c6Subscriber ⟨[], [], [], [], []⟩
    (by intro r hr; cases hr)
